import Mathlib

/-!
Shallow embedding of the todobackend ownership-scoped CRUD surface.

Source layout:
* `src/unnamed/part_001` — the Mongoose `todoSchema` (title required,
  description default `""`, read/completed default `false`, owner reference,
  timestamps).
* `src/unnamed/part_000` — the API todo controller: `getTodos`, `createTodo`,
  `updateTodo`, `deleteTodo`, `markAsRead`.
* `src/routes/todoRoutes.js` — the API router wiring each controller action
  behind the bearer-token auth middleware, and that middleware itself.
* `src/app.js` — the cookie JWT middleware and the HTML-form todo handlers.

The document store is modelled as a `List Todo`; Mongo's `_id` uniqueness is
an explicit `UniqueIds` hypothesis where a proof needs it.  A route `:id`
parameter is a `RawId`: either a well-formed store identifier or a malformed
string, which makes the Mongo driver raise a `CastError` on lookup.
-/

namespace TodoBackend

/-- A user record as resolved by `User.findById` (password omitted, as the
middleware selects `-password`). -/
structure User where
  id : Nat
  username : String
deriving Repr, DecidableEq

/-- A todo document per `todoSchema` (src/unnamed/part_001): `title`,
`description`, `read`, `completed`, owner reference `user`, plus the
`createdAt` timestamp added by `timestamps: true`. -/
structure Todo where
  id : Nat
  title : String
  description : String
  read : Bool
  completed : Bool
  user : Nat
  createdAt : Nat
deriving Repr, DecidableEq

/-- A route `:id` parameter: either a well-formed store identifier, or a
malformed string on which the store's cast to ObjectId raises `CastError`. -/
inductive RawId where
  | valid (id : Nat)
  | malformed (s : String)
deriving Repr, DecidableEq

/-- Response bodies the handlers emit. -/
inductive Body where
  | errorBody (msg : String)
  | todoBody (t : Todo)
  | todoList (ts : List Todo)
  | messageBody (msg : String)
  | successBody
deriving Repr, DecidableEq

/-- An HTTP response: status code and JSON body. -/
structure Response where
  status : Nat
  body : Body
deriving Repr, DecidableEq

/-- Mongo `_id` is a unique index: all ids in the store are pairwise
distinct. -/
def UniqueIds (store : List Todo) : Prop :=
  store.Pairwise (fun a b => a.id ≠ b.id)

/-- `Todo.findOne({ _id: id, user: uid })`: the owner-scoped joint lookup. -/
def findOne (store : List Todo) (id uid : Nat) : Option Todo :=
  store.find? (fun t => t.id == id && t.user == uid)

/-- `todo.save()` on a fetched document: the store row carrying the
document's `_id` is overwritten with the new document. -/
def saveTodo (store : List Todo) (t : Todo) : List Todo :=
  store.map (fun u => if u.id == t.id then t else u)

/-- Insertion step for `.sort({ createdAt: -1 })` (newest first). -/
def insertDesc (t : Todo) : List Todo → List Todo
  | [] => [t]
  | u :: us => if t.createdAt ≤ u.createdAt then u :: insertDesc t us else t :: u :: us

/-- `.sort({ createdAt: -1 })`: order by creation time descending. -/
def sortByCreatedAtDesc (l : List Todo) : List Todo :=
  l.foldr insertDesc []

/-- `exports.getTodos` (src/unnamed/part_000 lines 4-13): all todos owned by
the caller, newest first. -/
def getTodos (store : List Todo) (uid : Nat) : Response × List Todo :=
  (⟨200, .todoList (sortByCreatedAtDesc (store.filter (fun t => t.user == uid)))⟩, store)

/-- Body of a create request: `{ title, description }`, either field may be
absent. -/
structure CreateInput where
  title : Option String
  description : Option String
deriving Repr, DecidableEq

/-- JS truthiness test `!title` on an optional string field: true when the
field is absent or the empty string. -/
def falsyStr : Option String → Bool
  | none => true
  | some s => s == ""

/-- JS `description || ''`: the empty string when absent (or itself empty,
where the two coincide). -/
def orEmpty : Option String → String
  | none => ""
  | some s => if s == "" then "" else s

/-- `exports.createTodo` (src/unnamed/part_000 lines 16-38).  `newId` and
`now` stand for the ObjectId and `createdAt` timestamp the store generates
on insert. -/
def createTodo (store : List Todo) (uid : Nat) (input : CreateInput)
    (newId now : Nat) : Response × List Todo :=
  match input.title with
  | none => (⟨400, .errorBody "Title is required"⟩, store)
  | some t =>
    if t == "" then (⟨400, .errorBody "Title is required"⟩, store)
    else
      let todo : Todo :=
        { id := newId, title := t, description := orEmpty input.description,
          read := false, completed := false, user := uid, createdAt := now }
      (⟨201, .todoBody todo⟩, todo :: store)

/-- Body of an update request: `{ title?, description?, completed? }`. -/
structure UpdateInput where
  title : Option String
  description : Option String
  completed : Option Bool
deriving Repr, DecidableEq

/-- The three `if (x !== undefined) todo.x = x` statements of the update
handlers: fields present in the input overwrite, absent fields are kept. -/
def applyUpdate (t : Todo) (input : UpdateInput) : Todo :=
  { t with
    title := input.title.getD t.title,
    description := input.description.getD t.description,
    completed := input.completed.getD t.completed }

/-- `exports.updateTodo` (src/unnamed/part_000 lines 41-69), including the
`CastError` branch returning 400 on a malformed id. -/
def updateTodo (store : List Todo) (uid : Nat) (rawId : RawId)
    (input : UpdateInput) : Response × List Todo :=
  match rawId with
  | .malformed _ => (⟨400, .errorBody "Invalid todo ID"⟩, store)
  | .valid id =>
    match findOne store id uid with
    | none => (⟨404, .errorBody "Todo not found"⟩, store)
    | some todo =>
      let todo1 := applyUpdate todo input
      (⟨200, .todoBody todo1⟩, saveTodo store todo1)

/-- `exports.deleteTodo` (src/unnamed/part_000 lines 72-93):
`findOneAndDelete` on the owner-scoped pair, with the `CastError` branch. -/
def deleteTodo (store : List Todo) (uid : Nat) (rawId : RawId) :
    Response × List Todo :=
  match rawId with
  | .malformed _ => (⟨400, .errorBody "Invalid todo ID"⟩, store)
  | .valid id =>
    match findOne store id uid with
    | none => (⟨404, .errorBody "Todo not found"⟩, store)
    | some _ =>
      (⟨200, .messageBody "Todo deleted successfully"⟩,
        store.eraseP (fun t => t.id == id && t.user == uid))

/-- `exports.markAsRead` (src/unnamed/part_000 lines 96-120): sets
`read = true` unconditionally on the owner-scoped match. -/
def markAsRead (store : List Todo) (uid : Nat) (rawId : RawId) :
    Response × List Todo :=
  match rawId with
  | .malformed _ => (⟨400, .errorBody "Invalid todo ID"⟩, store)
  | .valid id =>
    match findOne store id uid with
    | none => (⟨404, .errorBody "Todo not found"⟩, store)
    | some todo =>
      let todo1 := { todo with read := true }
      (⟨200, .todoBody todo1⟩, saveTodo store todo1)

/-- Modelled from the spec (§4.2 Token Service, the external jsonwebtoken
library): a bearer token is either a signed claim `{ id, username }` with an
issue instant and lifetime under some secret, or garbage that fails to
parse/verify. -/
inductive RawToken where
  | signed (id : Nat) (username : String) (iat lifetime : Nat) (secret : String)
  | garbage (s : String)
deriving Repr, DecidableEq

/-- Outcome of `jwt.verify`: the decoded claim, or one of the two error
names the middleware dispatches on. -/
inductive VerifyResult where
  | ok (id : Nat) (username : String)
  | jsonWebTokenError
  | tokenExpiredError
deriving Repr, DecidableEq

/-- Modelled from the spec (§4.2): `jwt.verify(token, secret)` evaluated at
instant `now`.  A garbage token or wrong-secret signature raises
`JsonWebTokenError`; a correctly signed token past its validity window
raises `TokenExpiredError`; otherwise the claim is returned. -/
def verify (tok : RawToken) (secret : String) (now : Nat) : VerifyResult :=
  match tok with
  | .garbage _ => .jsonWebTokenError
  | .signed id uname iat lifetime s =>
    if s == secret then
      if iat + lifetime ≤ now then .tokenExpiredError
      else .ok id uname
    else .jsonWebTokenError

/-- Outcome of the bearer-token auth middleware: reject with a status and
error message, or attach the decoded identity and continue. -/
inductive AuthOutcome where
  | reject (status : Nat) (msg : String)
  | proceed (id : Nat) (username : String)
deriving Repr, DecidableEq

/-- The bearer-token auth middleware (src/routes/todoRoutes.js, middleware
part, lines 16-50): 401 with a cause-specific message for a missing token,
an invalid token, an expired token, or an unresolvable user; otherwise
proceeds with the decoded identity. -/
def authMiddleware (header : Option RawToken) (secret : String) (now : Nat)
    (users : List User) : AuthOutcome :=
  match header with
  | none => .reject 401 "No token provided, authorization denied"
  | some tok =>
    match verify tok secret now with
    | .jsonWebTokenError => .reject 401 "Invalid token"
    | .tokenExpiredError => .reject 401 "Token expired"
    | .ok uid uname =>
      match users.find? (fun u => u.id == uid) with
      | none => .reject 401 "User not found"
      | some _ => .proceed uid uname

/-- `router.get('/', auth, todoController.getTodos)`. -/
def apiGetTodos (header : Option RawToken) (secret : String) (now : Nat)
    (users : List User) (store : List Todo) : Response × List Todo :=
  match authMiddleware header secret now users with
  | .reject s m => (⟨s, .errorBody m⟩, store)
  | .proceed uid _ => getTodos store uid

/-- `router.post('/', auth, todoController.createTodo)`. -/
def apiCreateTodo (header : Option RawToken) (secret : String) (now : Nat)
    (users : List User) (store : List Todo) (input : CreateInput)
    (newId tnow : Nat) : Response × List Todo :=
  match authMiddleware header secret now users with
  | .reject s m => (⟨s, .errorBody m⟩, store)
  | .proceed uid _ => createTodo store uid input newId tnow

/-- `router.put('/:id', auth, todoController.updateTodo)`. -/
def apiUpdateTodo (header : Option RawToken) (secret : String) (now : Nat)
    (users : List User) (store : List Todo) (rawId : RawId)
    (input : UpdateInput) : Response × List Todo :=
  match authMiddleware header secret now users with
  | .reject s m => (⟨s, .errorBody m⟩, store)
  | .proceed uid _ => updateTodo store uid rawId input

/-- `router.delete('/:id', auth, todoController.deleteTodo)`. -/
def apiDeleteTodo (header : Option RawToken) (secret : String) (now : Nat)
    (users : List User) (store : List Todo) (rawId : RawId) :
    Response × List Todo :=
  match authMiddleware header secret now users with
  | .reject s m => (⟨s, .errorBody m⟩, store)
  | .proceed uid _ => deleteTodo store uid rawId

/-- `router.patch('/:id/read', auth, todoController.markAsRead)`. -/
def apiMarkAsRead (header : Option RawToken) (secret : String) (now : Nat)
    (users : List User) (store : List Todo) (rawId : RawId) :
    Response × List Todo :=
  match authMiddleware header secret now users with
  | .reject s m => (⟨s, .errorBody m⟩, store)
  | .proceed uid _ => markAsRead store uid rawId

/-- The cookie JWT middleware (src/app.js lines 46-66).  It always calls
`next()`, so there is no reject outcome: the result is the identity attached
to the request (if any) together with whether the token cookie was cleared.
The cookie is cleared exactly when `jwt.verify` throws; a decoded id with no
matching user silently leaves the request anonymous. -/
def cookieMiddleware (cookie : Option RawToken) (secret : String) (now : Nat)
    (users : List User) : Option User × Bool :=
  match cookie with
  | none => (none, false)
  | some tok =>
    match verify tok secret now with
    | .ok uid _ => (users.find? (fun u => u.id == uid), false)
    | .jsonWebTokenError => (none, true)
    | .tokenExpiredError => (none, true)

/-- `app.put('/todos/:id', ...)` (src/app.js lines 219-244): the HTML-form
update handler.  It has no `CastError` branch, so a malformed id falls into
the generic catch and returns 500. -/
def webUpdateTodo (user : Option User) (store : List Todo) (rawId : RawId)
    (input : UpdateInput) : Response × List Todo :=
  match user with
  | none => (⟨401, .errorBody "Unauthorized"⟩, store)
  | some u =>
    match rawId with
    | .malformed _ => (⟨500, .errorBody "Server error"⟩, store)
    | .valid id =>
      match findOne store id u.id with
      | none => (⟨404, .errorBody "Todo not found"⟩, store)
      | some todo =>
        let todo1 := applyUpdate todo input
        (⟨200, .successBody⟩, saveTodo store todo1)

/-- `app.delete('/todos/:id', ...)` (src/app.js lines 246-265): the
HTML-form delete handler, likewise without a `CastError` branch. -/
def webDeleteTodo (user : Option User) (store : List Todo) (rawId : RawId) :
    Response × List Todo :=
  match user with
  | none => (⟨401, .errorBody "Unauthorized"⟩, store)
  | some u =>
    match rawId with
    | .malformed _ => (⟨500, .errorBody "Server error"⟩, store)
    | .valid id =>
      match findOne store id u.id with
      | none => (⟨404, .errorBody "Todo not found"⟩, store)
      | some _ =>
        (⟨200, .successBody⟩,
          store.eraseP (fun t => t.id == id && t.user == u.id))

/-- `app.patch('/todos/:id/read', ...)` (src/app.js lines 267-289): the
HTML-form mark-read handler, likewise without a `CastError` branch. -/
def webMarkAsRead (user : Option User) (store : List Todo) (rawId : RawId) :
    Response × List Todo :=
  match user with
  | none => (⟨401, .errorBody "Unauthorized"⟩, store)
  | some u =>
    match rawId with
    | .malformed _ => (⟨500, .errorBody "Server error"⟩, store)
    | .valid id =>
      match findOne store id u.id with
      | none => (⟨404, .errorBody "Todo not found"⟩, store)
      | some todo =>
        let todo1 := { todo with read := true }
        (⟨200, .successBody⟩, saveTodo store todo1)

/-! ### Helper lemmas -/

/-- The record returned by the owner-scoped lookup carries exactly the
requested id and owner. -/
lemma findOne_props {store : List Todo} {id uid : Nat} {T : Todo}
    (h : findOne store id uid = some T) : T.id = id ∧ T.user = uid := by
  simp only [findOne] at h
  have hp := List.find?_some h
  simpa [Bool.and_eq_true, beq_iff_eq] using hp

/-- When no element of the store matches the owner-scoped pair, the lookup
is empty. -/
lemma findOne_eq_none {store : List Todo} {id uid : Nat}
    (h : ∀ u ∈ store, ¬(u.id = id ∧ u.user = uid)) :
    findOne store id uid = none := by
  simp only [findOne]
  rw [List.find?_eq_none]
  intro u hu
  simp only [Bool.and_eq_true, beq_iff_eq]
  exact h u hu

/-- Saving a document a second time does not change the store again. -/
lemma saveTodo_saveTodo (store : List Todo) (t : Todo) :
    saveTodo (saveTodo store t) t = saveTodo store t := by
  simp only [saveTodo, List.map_map]
  apply List.map_congr_left
  intro u _
  by_cases h : u.id = t.id <;> simp [Function.comp, h]

/-- After saving a document with the id and owner the lookup found, the
lookup returns the saved document (ids being unique in the store). -/
lemma findOne_saveTodo : ∀ (store : List Todo) (id uid : Nat) (T T1 : Todo),
    UniqueIds store → findOne store id uid = some T →
    T1.id = T.id → T1.user = T.user →
    findOne (saveTodo store T1) id uid = some T1 := by
  intro store
  induction store with
  | nil =>
    intro id uid T T1 _ hfind _ _
    simp [findOne] at hfind
  | cons u us ih =>
    intro id uid T T1 huniq hfind hid huser
    obtain ⟨hu, hus⟩ := List.pairwise_cons.mp huniq
    obtain ⟨hTid, hTuser⟩ := findOne_props hfind
    cases hpred : (u.id == id && u.user == uid) with
    | true =>
      have hTu : u = T := by
        simp only [findOne, List.find?_cons, hpred, Option.some.injEq] at hfind
        exact hfind
      have hhead : (u.id == T1.id) = true := by
        simp [hid, hTu]
      have hpred1 : (T1.id == id && T1.user == uid) = true := by
        simp [hid, hTid, huser, hTuser]
      simp only [saveTodo, List.map_cons]
      rw [if_pos hhead]
      simp only [findOne, List.find?_cons, hpred1]
    | false =>
      have hfind' : findOne us id uid = some T := by
        simpa only [findOne, List.find?_cons, hpred] using hfind
      have hfind2 : List.find? (fun t => t.id == id && t.user == uid) us = some T :=
        hfind'
      have hTmem : T ∈ us := List.mem_of_find?_eq_some hfind2
      have hne : u.id ≠ T.id := hu T hTmem
      have hhead : ¬((u.id == T1.id) = true) := by
        simp [hid, hne]
      have htail := ih id uid T T1 hus hfind' hid huser
      simp only [saveTodo, List.map_cons]
      rw [if_neg hhead]
      simp only [findOne, List.find?_cons, hpred]
      exact htail

/-- After erasing the record the owner-scoped lookup found, no record with
that id remains anywhere in the store (ids being unique). -/
lemma eraseP_forall_ne_id : ∀ (store : List Todo) (id uid : Nat) (T : Todo),
    UniqueIds store → findOne store id uid = some T →
    ∀ t ∈ store.eraseP (fun t => t.id == id && t.user == uid), t.id ≠ id := by
  intro store
  induction store with
  | nil =>
    intro id uid T _ hfind
    simp [findOne] at hfind
  | cons u us ih =>
    intro id uid T huniq hfind
    obtain ⟨hu, hus⟩ := List.pairwise_cons.mp huniq
    obtain ⟨hTid, hTuser⟩ := findOne_props hfind
    cases hpred : (u.id == id && u.user == uid) with
    | true =>
      have hTu : u = T := by
        simp only [findOne, List.find?_cons, hpred, Option.some.injEq] at hfind
        exact hfind
      simp only [List.eraseP_cons, hpred, cond_true]
      intro t ht hc
      exact hu t ht (by rw [hTu, hTid, hc])
    | false =>
      have hfind' : findOne us id uid = some T := by
        simpa only [findOne, List.find?_cons, hpred] using hfind
      have hfind2 : List.find? (fun t => t.id == id && t.user == uid) us = some T :=
        hfind'
      have hTmem : T ∈ us := List.mem_of_find?_eq_some hfind2
      simp only [List.eraseP_cons, hpred, cond_false]
      intro t ht
      rcases List.mem_cons.mp ht with rfl | ht'
      · exact fun hc => hu T hTmem (by rw [hc, hTid])
      · exact ih id uid T hus hfind' t ht'

/-- Membership is preserved by the descending insertion. -/
lemma mem_insertDesc {x t : Todo} : ∀ {l : List Todo},
    x ∈ insertDesc t l ↔ x = t ∨ x ∈ l := by
  intro l
  induction l with
  | nil => simp [insertDesc]
  | cons u us ih =>
    by_cases h : t.createdAt ≤ u.createdAt
    · simp only [insertDesc, if_pos h, List.mem_cons, ih]
      tauto
    · simp only [insertDesc, if_neg h, List.mem_cons]

/-- Sorting by creation time does not change the set of records listed. -/
lemma mem_sortByCreatedAtDesc {x : Todo} : ∀ {l : List Todo},
    x ∈ sortByCreatedAtDesc l ↔ x ∈ l := by
  intro l
  induction l with
  | nil => simp [sortByCreatedAtDesc]
  | cons u us ih =>
    show x ∈ insertDesc u (sortByCreatedAtDesc us) ↔ x ∈ u :: us
    rw [mem_insertDesc, List.mem_cons, ih]

/-! ### Claim theorems -/

/-- C1: for a todo T owned by user A and any user B ≠ A, Update, Delete and
MarkRead invoked with B's identity and T's id do not succeed: each returns
the 404 "Todo not found" response with the store untouched, and that
response is literally identical to the one returned for an id matching no
record at all, so the two cases are indistinguishable to the caller. -/
theorem c1_cross_owner_not_found (store : List Todo) (T : Todo) (A B : Nat)
    (input : UpdateInput) (hmem : T ∈ store) (hown : T.user = A) (hne : B ≠ A)
    (huniq : ∀ u ∈ store, u.id = T.id → u.user = A) :
    (updateTodo store B (.valid T.id) input =
        (⟨404, .errorBody "Todo not found"⟩, store) ∧
     deleteTodo store B (.valid T.id) =
        (⟨404, .errorBody "Todo not found"⟩, store) ∧
     markAsRead store B (.valid T.id) =
        (⟨404, .errorBody "Todo not found"⟩, store)) ∧
    ∀ id2 : Nat, (∀ u ∈ store, u.id ≠ id2) →
      updateTodo store B (.valid id2) input =
          (⟨404, .errorBody "Todo not found"⟩, store) ∧
      deleteTodo store B (.valid id2) =
          (⟨404, .errorBody "Todo not found"⟩, store) ∧
      markAsRead store B (.valid id2) =
          (⟨404, .errorBody "Todo not found"⟩, store) := by
  have h1 : findOne store T.id B = none := by
    apply findOne_eq_none
    intro u hu hc
    exact hne ((huniq u hu hc.1).symm.trans hc.2).symm
  have h2 : ∀ id2 : Nat, (∀ u ∈ store, u.id ≠ id2) → findOne store id2 B = none := by
    intro id2 h
    apply findOne_eq_none
    intro u hu hc
    exact h u hu hc.1
  refine ⟨⟨?_, ?_, ?_⟩, ?_⟩
  · simp [updateTodo, h1]
  · simp [deleteTodo, h1]
  · simp [markAsRead, h1]
  · intro id2 hid2
    have h3 := h2 id2 hid2
    exact ⟨by simp [updateTodo, h3], by simp [deleteTodo, h3], by simp [markAsRead, h3]⟩

/-- Witness for C1 at a concrete store: user 8 probing user 7's todo (id 1)
gets the same 404 as probing the nonexistent id 2. -/
theorem c1_cross_owner_not_found_witness :
    updateTodo [⟨1, "a", "", false, false, 7, 0⟩] 8 (.valid 1) ⟨none, none, none⟩ =
        (⟨404, .errorBody "Todo not found"⟩, [⟨1, "a", "", false, false, 7, 0⟩]) ∧
    deleteTodo [⟨1, "a", "", false, false, 7, 0⟩] 8 (.valid 1) =
        (⟨404, .errorBody "Todo not found"⟩, [⟨1, "a", "", false, false, 7, 0⟩]) ∧
    markAsRead [⟨1, "a", "", false, false, 7, 0⟩] 8 (.valid 1) =
        (⟨404, .errorBody "Todo not found"⟩, [⟨1, "a", "", false, false, 7, 0⟩]) ∧
    updateTodo [⟨1, "a", "", false, false, 7, 0⟩] 8 (.valid 2) ⟨none, none, none⟩ =
        (⟨404, .errorBody "Todo not found"⟩, [⟨1, "a", "", false, false, 7, 0⟩]) ∧
    deleteTodo [⟨1, "a", "", false, false, 7, 0⟩] 8 (.valid 2) =
        (⟨404, .errorBody "Todo not found"⟩, [⟨1, "a", "", false, false, 7, 0⟩]) ∧
    markAsRead [⟨1, "a", "", false, false, 7, 0⟩] 8 (.valid 2) =
        (⟨404, .errorBody "Todo not found"⟩, [⟨1, "a", "", false, false, 7, 0⟩]) := by
  have h := c1_cross_owner_not_found [⟨1, "a", "", false, false, 7, 0⟩]
    ⟨1, "a", "", false, false, 7, 0⟩ 7 8 ⟨none, none, none⟩
    (by decide) rfl (by decide) (by decide)
  have h2 := h.2 2 (by decide)
  exact ⟨h.1.1, h.1.2.1, h.1.2.2, h2.1, h2.2.1, h2.2.2⟩

/-- C2: Create with a missing or empty title fails with 400 "Title is
required" and leaves the store unchanged; with a non-empty title it returns
201 and prepends a record with exactly the given title, the given
description (or `""` when absent), `read = false`, `completed = false`, and
the caller as owner. -/
theorem c2_create_spec (store : List Todo) (uid : Nat) (input : CreateInput)
    (newId now : Nat) :
    ((input.title = none ∨ input.title = some "") →
      createTodo store uid input newId now =
        (⟨400, .errorBody "Title is required"⟩, store)) ∧
    (∀ t : String, input.title = some t → t ≠ "" →
      ∃ rec : Todo,
        createTodo store uid input newId now = (⟨201, .todoBody rec⟩, rec :: store) ∧
        rec.title = t ∧ rec.description = input.description.getD "" ∧
        rec.read = false ∧ rec.completed = false ∧ rec.user = uid) := by
  constructor
  · rintro (h | h) <;> simp [createTodo, h]
  · intro t ht hnz
    refine ⟨⟨newId, t, orEmpty input.description, false, false, uid, now⟩, ?_,
      rfl, ?_, rfl, rfl, rfl⟩
    · simp [createTodo, ht, hnz]
    · cases input.description with
      | none => rfl
      | some d =>
        by_cases hd : d = "" <;> simp [orEmpty, hd]

/-- Witness for C2 on the spec's own example input. -/
theorem c2_create_spec_witness :
    ∃ rec : Todo,
      createTodo [] 1 ⟨some "Buy milk", none⟩ 5 0 = (⟨201, .todoBody rec⟩, [rec]) ∧
      rec.title = "Buy milk" ∧ rec.description = (none : Option String).getD "" ∧
      rec.read = false ∧ rec.completed = false ∧ rec.user = 1 :=
  (c2_create_spec [] 1 ⟨some "Buy milk", none⟩ 5 0).2 "Buy milk" rfl (by decide)

/-- C3: on an (id, owner) match, Update overwrites exactly the fields
present in the input, keeps absent fields, never changes `read`, `user` or
the id, and an input of only `{completed: true}` changes nothing but the
`completed` flag. -/
theorem c3_update_partial (store : List Todo) (uid id : Nat) (T : Todo)
    (input : UpdateInput) (hfind : findOne store id uid = some T) :
    updateTodo store uid (.valid id) input =
      (⟨200, .todoBody (applyUpdate T input)⟩, saveTodo store (applyUpdate T input)) ∧
    (applyUpdate T input).title = input.title.getD T.title ∧
    (applyUpdate T input).description = input.description.getD T.description ∧
    (applyUpdate T input).completed = input.completed.getD T.completed ∧
    (applyUpdate T input).read = T.read ∧
    (applyUpdate T input).user = T.user ∧
    (applyUpdate T input).id = T.id ∧
    (input = ⟨none, none, some true⟩ →
      applyUpdate T input = { T with completed := true }) := by
  refine ⟨by simp [updateTodo, hfind], rfl, rfl, rfl, rfl, rfl, rfl, ?_⟩
  rintro rfl
  rfl

/-- Witness for C3: updating only `completed` on a concrete record. -/
theorem c3_update_partial_witness :
    updateTodo [⟨1, "a", "d", true, false, 7, 0⟩] 7 (.valid 1) ⟨none, none, some true⟩ =
      (⟨200, .todoBody (applyUpdate ⟨1, "a", "d", true, false, 7, 0⟩ ⟨none, none, some true⟩)⟩,
       saveTodo [⟨1, "a", "d", true, false, 7, 0⟩]
         (applyUpdate ⟨1, "a", "d", true, false, 7, 0⟩ ⟨none, none, some true⟩)) ∧
    (applyUpdate (⟨1, "a", "d", true, false, 7, 0⟩ : Todo) ⟨none, none, some true⟩).title =
      (none : Option String).getD "a" ∧
    (applyUpdate (⟨1, "a", "d", true, false, 7, 0⟩ : Todo) ⟨none, none, some true⟩).description =
      (none : Option String).getD "d" ∧
    (applyUpdate (⟨1, "a", "d", true, false, 7, 0⟩ : Todo) ⟨none, none, some true⟩).completed =
      (some true).getD false ∧
    (applyUpdate (⟨1, "a", "d", true, false, 7, 0⟩ : Todo) ⟨none, none, some true⟩).read = true ∧
    (applyUpdate (⟨1, "a", "d", true, false, 7, 0⟩ : Todo) ⟨none, none, some true⟩).user = 7 ∧
    (applyUpdate (⟨1, "a", "d", true, false, 7, 0⟩ : Todo) ⟨none, none, some true⟩).id = 1 ∧
    ((⟨none, none, some true⟩ : UpdateInput) = ⟨none, none, some true⟩ →
      applyUpdate (⟨1, "a", "d", true, false, 7, 0⟩ : Todo) ⟨none, none, some true⟩ =
        { (⟨1, "a", "d", true, false, 7, 0⟩ : Todo) with completed := true }) :=
  c3_update_partial [⟨1, "a", "d", true, false, 7, 0⟩] 7 1
    ⟨1, "a", "d", true, false, 7, 0⟩ ⟨none, none, some true⟩ rfl

/-- C8: on the API surface, an authenticated Update, Delete or MarkRead
request with a malformed id fails with status 400 "Invalid todo ID" (the
CastError branch) and leaves the store untouched. -/
theorem c8_api_malformed_id_400 (header : Option RawToken) (secret : String)
    (now : Nat) (users : List User) (store : List Todo) (s : String)
    (input : UpdateInput) (uid : Nat) (uname : String)
    (hauth : authMiddleware header secret now users = .proceed uid uname) :
    apiUpdateTodo header secret now users store (.malformed s) input =
      (⟨400, .errorBody "Invalid todo ID"⟩, store) ∧
    apiDeleteTodo header secret now users store (.malformed s) =
      (⟨400, .errorBody "Invalid todo ID"⟩, store) ∧
    apiMarkAsRead header secret now users store (.malformed s) =
      (⟨400, .errorBody "Invalid todo ID"⟩, store) := by
  refine ⟨?_, ?_, ?_⟩ <;>
    simp [apiUpdateTodo, apiDeleteTodo, apiMarkAsRead, hauth,
      updateTodo, deleteTodo, markAsRead]

/-- Witness for C8 with a concrete valid token and resolvable user. -/
theorem c8_api_malformed_id_400_witness :
    apiUpdateTodo (some (.signed 1 "alice" 0 1000 "s")) "s" 100 [⟨1, "alice"⟩]
        [] (.malformed "zzz") ⟨none, none, none⟩ =
      (⟨400, .errorBody "Invalid todo ID"⟩, []) ∧
    apiDeleteTodo (some (.signed 1 "alice" 0 1000 "s")) "s" 100 [⟨1, "alice"⟩]
        [] (.malformed "zzz") =
      (⟨400, .errorBody "Invalid todo ID"⟩, []) ∧
    apiMarkAsRead (some (.signed 1 "alice" 0 1000 "s")) "s" 100 [⟨1, "alice"⟩]
        [] (.malformed "zzz") =
      (⟨400, .errorBody "Invalid todo ID"⟩, []) :=
  c8_api_malformed_id_400 (some (.signed 1 "alice" 0 1000 "s")) "s" 100
    [⟨1, "alice"⟩] [] "zzz" ⟨none, none, none⟩ 1 "alice" (by decide)

/-- C10: on the HTML-form surface, an authenticated update, delete or
mark-read request with a malformed id returns status 500 "Server error"
(the generic catch — there is no CastError branch), not the 400 the API
surface returns for the same malformed id. -/
theorem c10_web_malformed_id_500 (u : User) (store : List Todo) (s : String)
    (input : UpdateInput) :
    webUpdateTodo (some u) store (.malformed s) input =
      (⟨500, .errorBody "Server error"⟩, store) ∧
    webDeleteTodo (some u) store (.malformed s) =
      (⟨500, .errorBody "Server error"⟩, store) ∧
    webMarkAsRead (some u) store (.malformed s) =
      (⟨500, .errorBody "Server error"⟩, store) ∧
    (updateTodo store u.id (.malformed s) input).1.status = 400 ∧
    (deleteTodo store u.id (.malformed s)).1.status = 400 ∧
    (markAsRead store u.id (.malformed s)).1.status = 400 :=
  ⟨rfl, rfl, rfl, rfl, rfl, rfl⟩

/-- C4: on the bearer-token path the auth middleware rejects with a
distinct 401 outcome per failure cause — no token, invalid token, expired
token (distinct from invalid), and unresolvable user — and on every such
rejection no composed todo operation runs: the response is the rejection
itself and the store is untouched. -/
theorem c4_auth_distinct_failures (secret : String) (now : Nat)
    (users : List User) (store : List Todo) :
    authMiddleware none secret now users =
      .reject 401 "No token provided, authorization denied" ∧
    (∀ tok, verify tok secret now = .jsonWebTokenError →
      authMiddleware (some tok) secret now users = .reject 401 "Invalid token") ∧
    (∀ tok, verify tok secret now = .tokenExpiredError →
      authMiddleware (some tok) secret now users = .reject 401 "Token expired") ∧
    (∀ tok uid uname, verify tok secret now = .ok uid uname →
      users.find? (fun u => u.id == uid) = none →
      authMiddleware (some tok) secret now users = .reject 401 "User not found") ∧
    (("No token provided, authorization denied" : String) ≠ "Invalid token" ∧
     ("No token provided, authorization denied" : String) ≠ "Token expired" ∧
     ("No token provided, authorization denied" : String) ≠ "User not found" ∧
     ("Invalid token" : String) ≠ "Token expired" ∧
     ("Invalid token" : String) ≠ "User not found" ∧
     ("Token expired" : String) ≠ "User not found") ∧
    (∀ header st m, authMiddleware header secret now users = .reject st m →
      apiGetTodos header secret now users store = (⟨st, .errorBody m⟩, store) ∧
      (∀ cinput newId tnow,
        apiCreateTodo header secret now users store cinput newId tnow =
          (⟨st, .errorBody m⟩, store)) ∧
      (∀ rawId input,
        apiUpdateTodo header secret now users store rawId input =
          (⟨st, .errorBody m⟩, store)) ∧
      (∀ rawId,
        apiDeleteTodo header secret now users store rawId =
          (⟨st, .errorBody m⟩, store)) ∧
      (∀ rawId,
        apiMarkAsRead header secret now users store rawId =
          (⟨st, .errorBody m⟩, store))) := by
  refine ⟨rfl, ?_, ?_, ?_, ?_, ?_⟩
  · intro tok h
    simp [authMiddleware, h]
  · intro tok h
    simp [authMiddleware, h]
  · intro tok uid uname h hf
    simp [authMiddleware, h, hf]
  · exact ⟨by decide, by decide, by decide, by decide, by decide, by decide⟩
  · intro header st m h
    refine ⟨?_, ?_, ?_, ?_, ?_⟩ <;>
      simp [apiGetTodos, apiCreateTodo, apiUpdateTodo, apiDeleteTodo,
        apiMarkAsRead, h]

/-- Witness for C4: each failure cause at a concrete token, and a rejected
request reaching a composed operation leaves the store unchanged. -/
theorem c4_auth_distinct_failures_witness :
    authMiddleware (some (.garbage "x")) "s" 100 [] =
      .reject 401 "Invalid token" ∧
    authMiddleware (some (.signed 1 "alice" 0 10 "s")) "s" 100 [] =
      .reject 401 "Token expired" ∧
    authMiddleware (some (.signed 1 "alice" 0 1000 "s")) "s" 100 [] =
      .reject 401 "User not found" ∧
    apiGetTodos none "s" 100 [] [⟨1, "a", "", false, false, 7, 0⟩] =
      (⟨401, .errorBody "No token provided, authorization denied"⟩,
       [⟨1, "a", "", false, false, 7, 0⟩]) ∧
    apiDeleteTodo none "s" 100 [] [⟨1, "a", "", false, false, 7, 0⟩] (.valid 1) =
      (⟨401, .errorBody "No token provided, authorization denied"⟩,
       [⟨1, "a", "", false, false, 7, 0⟩]) := by
  refine ⟨?_, ?_, ?_, ?_, ?_⟩
  · exact (c4_auth_distinct_failures "s" 100 [] []).2.1 (.garbage "x") rfl
  · exact (c4_auth_distinct_failures "s" 100 [] []).2.2.1
      (.signed 1 "alice" 0 10 "s") (by decide)
  · exact (c4_auth_distinct_failures "s" 100 [] []).2.2.2.1
      (.signed 1 "alice" 0 1000 "s") 1 "alice" (by decide) rfl
  · exact ((c4_auth_distinct_failures "s" 100 []
      [⟨1, "a", "", false, false, 7, 0⟩]).2.2.2.2.2 none 401
      "No token provided, authorization denied" rfl).1
  · exact ((c4_auth_distinct_failures "s" 100 []
      [⟨1, "a", "", false, false, 7, 0⟩]).2.2.2.2.2 none 401
      "No token provided, authorization denied" rfl).2.2.2.1 (.valid 1)

/-- C5: on the cookie path an invalid or expired token does not reject the
request — the middleware yields no identity and clears the cookie (fail
open) — whereas the same token on the API header path is rejected with
status 401 (fail closed). -/
theorem c5_cookie_fail_open (tok : RawToken) (secret : String) (now : Nat)
    (users : List User)
    (h : verify tok secret now = .jsonWebTokenError ∨
         verify tok secret now = .tokenExpiredError) :
    cookieMiddleware (some tok) secret now users = (none, true) ∧
    ∃ m : String, authMiddleware (some tok) secret now users = .reject 401 m := by
  rcases h with h | h
  · exact ⟨by simp [cookieMiddleware, h], "Invalid token",
      by simp [authMiddleware, h]⟩
  · exact ⟨by simp [cookieMiddleware, h], "Token expired",
      by simp [authMiddleware, h]⟩

/-- Witness for C5 at a concrete garbage token. -/
theorem c5_cookie_fail_open_witness :
    cookieMiddleware (some (.garbage "x")) "s" 100 [] = (none, true) ∧
    ∃ m : String,
      authMiddleware (some (.garbage "x")) "s" 100 [] = .reject 401 m :=
  c5_cookie_fail_open (.garbage "x") "s" 100 [] (Or.inl rfl)

/-- C6: MarkRead is idempotent — on an (id, owner) match it sets
`read = true` unconditionally, a second MarkRead on the same id by the same
owner succeeds with the same 200 response, and the store is unchanged by
the second call. -/
theorem c6_markAsRead_idempotent (store : List Todo) (uid id : Nat) (T : Todo)
    (huniq : UniqueIds store) (hfind : findOne store id uid = some T) :
    ∃ store1 : List Todo,
      markAsRead store uid (.valid id) =
        (⟨200, .todoBody { T with read := true }⟩, store1) ∧
      markAsRead store1 uid (.valid id) =
        (⟨200, .todoBody { T with read := true }⟩, store1) := by
  refine ⟨saveTodo store { T with read := true }, ?_, ?_⟩
  · simp [markAsRead, hfind]
  · have h2 : findOne (saveTodo store { T with read := true }) id uid =
        some { T with read := true } :=
      findOne_saveTodo store id uid T { T with read := true } huniq hfind rfl rfl
    have hX : ({ { T with read := true } with read := true } : Todo) =
        { T with read := true } := rfl
    simp [markAsRead, h2, hX, saveTodo_saveTodo]

/-- Witness for C6 at a concrete one-record store. -/
theorem c6_markAsRead_idempotent_witness :
    ∃ store1 : List Todo,
      markAsRead [⟨1, "a", "", false, false, 7, 0⟩] 7 (.valid 1) =
        (⟨200, .todoBody
          { (⟨1, "a", "", false, false, 7, 0⟩ : Todo) with read := true }⟩,
         store1) ∧
      markAsRead store1 7 (.valid 1) =
        (⟨200, .todoBody
          { (⟨1, "a", "", false, false, 7, 0⟩ : Todo) with read := true }⟩,
         store1) :=
  c6_markAsRead_idempotent [⟨1, "a", "", false, false, 7, 0⟩] 7 1
    ⟨1, "a", "", false, false, 7, 0⟩ (List.pairwise_singleton _ _) rfl

/-- C7: on an (id, owner) match Delete removes the record: afterwards no
record with that id is in the store, so no List for the owner ever shows
it, and deleting the same id again — like deleting any unmatched id —
returns 404 "Todo not found" and changes nothing. -/
theorem c7_delete_spec (store : List Todo) (uid id : Nat) (T : Todo)
    (huniq : UniqueIds store) (hfind : findOne store id uid = some T) :
    (deleteTodo store uid (.valid id) =
      (⟨200, .messageBody "Todo deleted successfully"⟩,
        store.eraseP (fun t => t.id == id && t.user == uid)) ∧
     (∀ t ∈ store.eraseP (fun t => t.id == id && t.user == uid), t.id ≠ id) ∧
     (∀ l, (getTodos (store.eraseP (fun t => t.id == id && t.user == uid)) uid).1.body =
        .todoList l → ∀ t ∈ l, t.id ≠ id) ∧
     deleteTodo (store.eraseP (fun t => t.id == id && t.user == uid)) uid (.valid id) =
       (⟨404, .errorBody "Todo not found"⟩,
        store.eraseP (fun t => t.id == id && t.user == uid))) ∧
    ∀ (store2 : List Todo) (uid2 id2 : Nat), findOne store2 id2 uid2 = none →
      deleteTodo store2 uid2 (.valid id2) =
        (⟨404, .errorBody "Todo not found"⟩, store2) := by
  have herase := eraseP_forall_ne_id store id uid T huniq hfind
  have hnone : findOne (store.eraseP (fun t => t.id == id && t.user == uid)) id uid =
      none := by
    apply findOne_eq_none
    intro u hu hc
    exact herase u hu hc.1
  refine ⟨⟨by simp [deleteTodo, hfind], herase, ?_, by simp [deleteTodo, hnone]⟩, ?_⟩
  · intro l hl t ht
    simp only [getTodos] at hl
    injection hl with hl2
    rw [← hl2] at ht
    exact herase t (List.mem_filter.mp (mem_sortByCreatedAtDesc.mp ht)).1
  · intro store2 uid2 id2 h
    simp [deleteTodo, h]

/-- Witness for C7 at a concrete one-record store. -/
theorem c7_delete_spec_witness :
    (deleteTodo [⟨1, "a", "", false, false, 7, 0⟩] 7 (.valid 1) =
      (⟨200, .messageBody "Todo deleted successfully"⟩,
        List.eraseP (fun t => t.id == 1 && t.user == 7)
          [⟨1, "a", "", false, false, 7, 0⟩]) ∧
     (∀ t ∈ List.eraseP (fun t => t.id == 1 && t.user == 7)
        [(⟨1, "a", "", false, false, 7, 0⟩ : Todo)], t.id ≠ 1) ∧
     (∀ l, (getTodos (List.eraseP (fun t => t.id == 1 && t.user == 7)
        [⟨1, "a", "", false, false, 7, 0⟩]) 7).1.body =
        .todoList l → ∀ t ∈ l, t.id ≠ 1) ∧
     deleteTodo (List.eraseP (fun t => t.id == 1 && t.user == 7)
        [⟨1, "a", "", false, false, 7, 0⟩]) 7 (.valid 1) =
       (⟨404, .errorBody "Todo not found"⟩,
        List.eraseP (fun t => t.id == 1 && t.user == 7)
          [⟨1, "a", "", false, false, 7, 0⟩])) ∧
    ∀ (store2 : List Todo) (uid2 id2 : Nat), findOne store2 id2 uid2 = none →
      deleteTodo store2 uid2 (.valid id2) =
        (⟨404, .errorBody "Todo not found"⟩, store2) :=
  c7_delete_spec [⟨1, "a", "", false, false, 7, 0⟩] 7 1
    ⟨1, "a", "", false, false, 7, 0⟩ (List.pairwise_singleton _ _) rfl

/-- C9: on the cookie path a valid token whose user cannot be resolved also
proceeds anonymously, but unlike the invalid/expired case the cookie is not
cleared: the cookie is cleared exactly when token verification throws. -/
theorem c9_cookie_unknown_principal (tok : RawToken) (secret : String)
    (now : Nat) (users : List User) (uid : Nat) (uname : String)
    (hok : verify tok secret now = .ok uid uname)
    (hmiss : users.find? (fun u => u.id == uid) = none) :
    cookieMiddleware (some tok) secret now users = (none, false) ∧
    ∀ cookie : Option RawToken,
      (cookieMiddleware cookie secret now users).2 = true ↔
        ∃ t : RawToken, cookie = some t ∧
          (verify t secret now = .jsonWebTokenError ∨
           verify t secret now = .tokenExpiredError) := by
  refine ⟨by simp [cookieMiddleware, hok, hmiss], ?_⟩
  intro cookie
  cases cookie with
  | none => simp [cookieMiddleware]
  | some t =>
    cases hv : verify t secret now with
    | ok i n => simp [cookieMiddleware, hv]
    | jsonWebTokenError => simp [cookieMiddleware, hv]
    | tokenExpiredError => simp [cookieMiddleware, hv]

/-- Witness for C9: a well-signed unexpired token for an absent user, and
the clear-exactly-on-throw law checked at a garbage cookie. -/
theorem c9_cookie_unknown_principal_witness :
    cookieMiddleware (some (.signed 1 "alice" 0 1000 "s")) "s" 100 [] =
      (none, false) ∧
    ((cookieMiddleware (some (.garbage "x")) "s" 100 []).2 = true ↔
      ∃ t : RawToken, some (.garbage "x") = some t ∧
        (verify t "s" 100 = .jsonWebTokenError ∨
         verify t "s" 100 = .tokenExpiredError)) := by
  have h := c9_cookie_unknown_principal (.signed 1 "alice" 0 1000 "s") "s" 100
    [] 1 "alice" rfl rfl
  exact ⟨h.1, h.2 (some (.garbage "x"))⟩

end TodoBackend
